import Mathlib

/-!
Shallow embedding of the multi-agent Git synchronization coordinator
(class GitSyncManager in invoice_mcp_server/infrastructure/git_sync.py,
with the error taxonomy of invoice_mcp_server/shared/exceptions.py).

Modelling conventions:
- Filesystem paths are lists of components; the repository root R has
  parent R.dropLast, the sync directory is R with ".agent_sync" appended,
  and a status file for agent a is the entry named a ++ ".json" in the
  sync-directory map.
- Every invocation of the external git tool (GitSyncManager._run_git) is
  modelled by its argument list paired with the (returncode, stdout,
  stderr) triple the tool produced; each operation takes those results as
  an environment and also returns the list of invocations it made, in
  order, so that "the operation ran command c" is a statement about that
  trace. stdout/stderr in the environment are the already-stripped values
  _run_git returns.
- The contents of a status file are modelled at the field level: the
  record of exactly the six fields json.dumps serializes in _write_status.
- Raised exceptions (InvoiceError with an ErrorCode) become Except.error;
  functions that raise nothing are total functions without Except.
-/

namespace GitSync

/-- Result of one invocation of the external git tool, as returned by
GitSyncManager._run_git: (returncode, stdout, stderr), stdout and stderr
stripped. A timeout or spawn failure is a negative code with empty stdout. -/
structure GitResult where
  code : Int
  stdout : String
  stderr : String
deriving Repr, DecidableEq

/-- One recorded git invocation: the argument list passed to _run_git
together with the result the tool produced for it. -/
abbrev GitCall := List String × GitResult

/-- Whether the first character list is a prefix of the second. -/
def charsStartWith : List Char → List Char → Bool
  | [], _ => true
  | _ :: _, [] => false
  | p :: ps, s :: ss => p == s && charsStartWith ps ss

/-- Whether the first character list occurs contiguously in the second. -/
def charsContain (pat : List Char) : List Char → Bool
  | [] => pat.isEmpty
  | s :: ss => charsStartWith pat (s :: ss) || charsContain pat ss

/-- Python's substring test (needle in haystack) for a nonempty needle. -/
def strContains (s pat : String) : Bool :=
  charsContain pat.data s.data

/-- Python's suffix test str.endswith for a nonempty suffix. -/
def strEndsWith (s suffix : String) : Bool :=
  charsStartWith suffix.data.reverse s.data.reverse

/-- Helper for splitLines: accumulates the current piece in reverse. -/
def splitLinesAux : List Char → List Char → List String
  | [], acc => [String.mk acc.reverse]
  | c :: cs, acc =>
    if c = '\n' then String.mk acc.reverse :: splitLinesAux cs []
    else splitLinesAux cs (c :: acc)

/-- Python's str.split on a newline separator: every piece is kept,
including empty ones. -/
def splitLines (s : String) : List String :=
  splitLinesAux s.data []

/-- First-match association-list lookup, modelling Python dict access
(keys are unique in the lists built here, so first match is the match). -/
def getKey {α : Type} (l : List (String × α)) (k : String) : Option α :=
  match l with
  | [] => none
  | p :: t => if p.1 = k then some p.2 else getKey t k

/-- Error codes from shared/exceptions.py (enum ErrorCode). -/
inductive ErrorCode where
  | UNKNOWN_ERROR
  | VALIDATION_ERROR
  | CONFIGURATION_ERROR
  | NOT_FOUND
  | ALREADY_EXISTS
  | RESOURCE_LOCKED
  | INVALID_INVOICE_STATE
  | PAYMENT_ERROR
  | CALCULATION_ERROR
  | DATABASE_ERROR
  | CONNECTION_ERROR
  | TRANSACTION_ERROR
  | TRANSPORT_ERROR
  | PROTOCOL_ERROR
  | TIMEOUT_ERROR
  | TOOL_NOT_FOUND
  | RESOURCE_NOT_FOUND
  | INVALID_PARAMS
deriving Repr, DecidableEq

/-- Numeric value of each error code, as in the Python enum. -/
def ErrorCode.value : ErrorCode → Nat
  | .UNKNOWN_ERROR => 1000
  | .VALIDATION_ERROR => 1001
  | .CONFIGURATION_ERROR => 1002
  | .NOT_FOUND => 2000
  | .ALREADY_EXISTS => 2001
  | .RESOURCE_LOCKED => 2002
  | .INVALID_INVOICE_STATE => 3000
  | .PAYMENT_ERROR => 3001
  | .CALCULATION_ERROR => 3002
  | .DATABASE_ERROR => 4000
  | .CONNECTION_ERROR => 4001
  | .TRANSACTION_ERROR => 4002
  | .TRANSPORT_ERROR => 5000
  | .PROTOCOL_ERROR => 5001
  | .TIMEOUT_ERROR => 5002
  | .TOOL_NOT_FOUND => 6000
  | .RESOURCE_NOT_FOUND => 6001
  | .INVALID_PARAMS => 6002

/-- An exception raised by the coordinator: an InvoiceError carrying a
message and an ErrorCode (details/cause omitted, always defaulted here). -/
structure InvoiceError where
  message : String
  code : ErrorCode
deriving Repr, DecidableEq

/-- Status of an agent's work (enum AgentStatus). -/
inductive AgentStatus where
  | idle
  | working
  | waiting
  | completed
  | error
deriving Repr, DecidableEq

/-- The string value of each status member (the Python enum's .value). -/
def AgentStatus.value : AgentStatus → String
  | .idle => "idle"
  | .working => "working"
  | .waiting => "waiting"
  | .completed => "completed"
  | .error => "error"

/-- Information about an agent's workspace (dataclass AgentInfo).
last_sync is an abstract clock reading (datetime.now() at the update). -/
structure AgentInfo where
  agent_id : String
  branch_name : String
  worktree_path : List String
  status : AgentStatus
  last_sync : Option Nat := none
  current_task : Option String := none
deriving Repr, DecidableEq

/-- The six fields _write_status json-dumps into a status file
(the serialized form of dataclass SyncStatus). -/
structure StatusFileData where
  agent_id : String
  status : String
  branch : String
  last_commit : Option String
  timestamp : String
  message : Option String
deriving Repr, DecidableEq

/-- The manager's in-memory state: the configured repository root (none
before set_repo_path) and the agent registry self._agents, as an
association list looked up by first match. self._sync_dir is determined
by repo_path (root with ".agent_sync" appended), so it is not stored. -/
structure ManagerState where
  repo_path : Option (List String)
  agents : List (String × AgentInfo)
deriving Repr, DecidableEq

/-- The sync-directory contents visible to this coordinator's writes: one
entry per file name (such as "a1.json") holding the fields last written. -/
abbrev SyncDir := List (String × StatusFileData)

/-- Python dict/directory overwrite: bind key k to v, dropping any prior
binding. -/
def setKey {α : Type} (l : List (String × α)) (k : String) (v : α) :
    List (String × α) :=
  (k, v) :: l.filter (fun p => p.1 != k)

/-- Deletion of a key (dict del / file unlink; a no-op if absent). -/
def delKey {α : Type} (l : List (String × α)) (k : String) :
    List (String × α) :=
  l.filter (fun p => p.1 != k)

/-- GitSyncManager.set_repo_path: records the root (and thereby the sync
directory, which it creates on disk). -/
def set_repo_path (st : ManagerState) (path : List String) : ManagerState :=
  { st with repo_path := some path }

/-- The state of a fresh, unconfigured manager (after __init__). -/
def initialState : ManagerState :=
  { repo_path := none, agents := [] }

/-- Environment for _write_status: the result of its rev-parse HEAD call
(run in the worktree when it exists, else in the repository root) and the
datetime.now().isoformat() timestamp taken by the SyncStatus constructor. -/
structure WriteStatusEnv where
  revParse : GitResult
  timestamp : String
deriving Repr, DecidableEq

/-- GitSyncManager._write_status: a no-op when the sync directory is unset
(iff repo_path is unset), otherwise overwrites the agent's status file
with the six serialized fields; last_commit is the rev-parse output when
that call exited 0, else null. -/
def write_status (st : ManagerState) (dir : SyncDir) (info : AgentInfo)
    (message : Option String) (env : WriteStatusEnv) : SyncDir :=
  match st.repo_path with
  | none => dir
  | some _ =>
    setKey dir (info.agent_id ++ ".json")
      { agent_id := info.agent_id
        status := info.status.value
        branch := info.branch_name
        last_commit := if env.revParse.code = 0 then some env.revParse.stdout else none
        timestamp := env.timestamp
        message := message }

/-- Environment for create_agent_workspace: the results of the git calls
it can make, whether the worktree path already exists on disk, and the
environment of the _write_status call it ends with. -/
structure CreateEnv where
  checkoutNew : GitResult
  checkoutExisting : GitResult
  checkoutBase : GitResult
  worktreeExists : Bool
  worktreeAdd : GitResult
  writeEnv : WriteStatusEnv
deriving Repr, DecidableEq

/-- Outcome of create_agent_workspace: the returned AgentInfo or the
raised InvoiceError, the state and sync directory after the call, and the
trace of git invocations made. -/
structure CreateOutcome where
  result : Except InvoiceError AgentInfo
  state : ManagerState
  dir : SyncDir
  trace : List GitCall
deriving Repr

/-- GitSyncManager.create_agent_workspace: raises CONFIGURATION_ERROR when
the repository path is unset; otherwise creates branch agent/id from the
base branch (falling back to a plain checkout when the creation fails
without "already exists" in stderr), checks the base branch back out,
creates the worktree at parent/worktree_id when that path does not exist
(raising DATABASE_ERROR when worktree add fails), then registers the
AgentInfo and writes its initial status. -/
def create_agent_workspace (st : ManagerState) (dir : SyncDir)
    (agent_id base_branch : String) (env : CreateEnv) : CreateOutcome :=
  match st.repo_path with
  | none =>
    { result := .error { message := "Repository path not set", code := .CONFIGURATION_ERROR }
      state := st, dir := dir, trace := [] }
  | some repo =>
    let branch_name := "agent/" ++ agent_id
    let worktree_path := repo.dropLast ++ ["worktree_" ++ agent_id]
    let t1 : List GitCall :=
      if env.checkoutNew.code != 0 && !(strContains env.checkoutNew.stderr "already exists") then
        [(["checkout", "-b", branch_name, base_branch], env.checkoutNew),
         (["checkout", branch_name], env.checkoutExisting)]
      else
        [(["checkout", "-b", branch_name, base_branch], env.checkoutNew)]
    let t2 := t1 ++ [(["checkout", base_branch], env.checkoutBase)]
    let register : List GitCall → CreateOutcome := fun t =>
      let info : AgentInfo :=
        { agent_id := agent_id
          branch_name := branch_name
          worktree_path := worktree_path
          status := .idle }
      let st' : ManagerState := { st with agents := setKey st.agents agent_id info }
      { result := .ok info
        state := st'
        dir := write_status st' dir info none env.writeEnv
        trace := t ++ [(["rev-parse", "HEAD"], env.writeEnv.revParse)] }
    if env.worktreeExists then
      register t2
    else
      let t3 := t2 ++ [(["worktree", "add", String.intercalate "/" worktree_path, branch_name],
                        env.worktreeAdd)]
      if env.worktreeAdd.code != 0 then
        { result := .error { message := "Failed to create worktree: " ++ env.worktreeAdd.stderr
                             code := .DATABASE_ERROR }
          state := st, dir := dir, trace := t3 }
      else
        register t3

/-- Outcome of remove_agent_workspace (which raises nothing): the state
and sync directory after the call and the git invocations made. -/
structure RemoveOutcome where
  state : ManagerState
  dir : SyncDir
  trace : List GitCall
deriving Repr, DecidableEq

/-- GitSyncManager.remove_agent_workspace: a no-op for an unregistered
agent; otherwise force-removes the worktree, deletes the status file when
the sync directory is set (unlink guarded by an existence check, so a
missing file is also fine), and drops the registry entry. The branch
deletion is commented out in the source, so no branch command is issued. -/
def remove_agent_workspace (st : ManagerState) (dir : SyncDir)
    (agent_id : String) (worktreeRemove : GitResult) : RemoveOutcome :=
  match getKey st.agents agent_id with
  | none => { state := st, dir := dir, trace := [] }
  | some info =>
    { state := { st with agents := delKey st.agents agent_id }
      dir := match st.repo_path with
        | none => dir
        | some _ => delKey dir (agent_id ++ ".json")
      trace := [(["worktree", "remove", String.intercalate "/" info.worktree_path, "--force"],
                 worktreeRemove)] }

/-- Environment for update_agent_status: the datetime.now() clock reading
stored in last_sync, and the environment of its _write_status call. -/
structure UpdateEnv where
  now : Nat
  writeEnv : WriteStatusEnv
deriving Repr, DecidableEq

/-- Outcome of update_agent_status: unit or the raised error, plus the
state and sync directory after the call. -/
structure UpdateOutcome where
  result : Except InvoiceError Unit
  state : ManagerState
  dir : SyncDir
deriving Repr

/-- GitSyncManager.update_agent_status: raises NOT_FOUND for an
unregistered agent; otherwise updates status, current_task and last_sync
in the registry record and writes the status file. -/
def update_agent_status (st : ManagerState) (dir : SyncDir) (agent_id : String)
    (status : AgentStatus) (task message : Option String) (env : UpdateEnv) :
    UpdateOutcome :=
  match getKey st.agents agent_id with
  | none =>
    { result := .error { message := "Agent " ++ agent_id ++ " not found", code := .NOT_FOUND }
      state := st, dir := dir }
  | some info =>
    let info' := { info with status := status, current_task := task, last_sync := some env.now }
    let st' := { st with agents := setKey st.agents agent_id info' }
    { result := .ok ()
      state := st'
      dir := write_status st' dir info' message env.writeEnv }

/-- GitSyncManager.get_all_agent_statuses: returns [] when the sync
directory is unset or absent on disk; otherwise parses every file the
*.json glob yields, keeping the parses that succeed and skipping (with a
logged warning) the files whose read or parse raises. The directory is the
list of (file name, raw content) pairs; loads is json.loads, returning
none exactly where the Python parse raises; J is whatever json.loads
yields for the files at hand. -/
def get_all_agent_statuses {J : Type} (st : ManagerState) (dirExists : Bool)
    (files : List (String × String)) (loads : String → Option J) : List J :=
  match st.repo_path with
  | none => []
  | some _ =>
    if !dirExists then []
    else (files.filter (fun f => strEndsWith f.1 ".json")).filterMap (fun f => loads f.2)

/-- Environment for sync_from_main: whether the worktree path exists, and
the results of its fetch and merge calls. -/
structure SyncEnv where
  worktreeExists : Bool
  fetch : GitResult
  merge : GitResult
deriving Repr, DecidableEq

/-- GitSyncManager.sync_from_main: false for an unregistered agent or a
missing worktree; otherwise runs fetch origin (result discarded by the
source) then merge origin/main in the worktree, returning whether the
merge exited 0. -/
def sync_from_main (st : ManagerState) (agent_id : String) (env : SyncEnv) :
    Bool × List GitCall :=
  match getKey st.agents agent_id with
  | none => (false, [])
  | some _info =>
    if !env.worktreeExists then (false, [])
    else
      (env.merge.code == 0,
       [(["fetch", "origin"], env.fetch),
        (["merge", "origin/main"], env.merge)])

/-- Environment for commit_agent_work: worktree existence and the results
of its add, commit and rev-parse calls. -/
structure CommitEnv where
  worktreeExists : Bool
  add : GitResult
  commit : GitResult
  revParse : GitResult
deriving Repr, DecidableEq

/-- GitSyncManager.commit_agent_work: none for an unregistered agent or a
missing worktree; otherwise stages everything (add -A, result discarded),
commits with the agent-tagged message, returns none when the commit exits
nonzero (the source distinguishes "nothing to commit" in stderr only to
choose the log line; both branches return None), and otherwise returns
the rev-parse HEAD output when that call exits 0, else none. -/
def commit_agent_work (st : ManagerState) (agent_id message : String)
    (env : CommitEnv) : Option String × List GitCall :=
  match getKey st.agents agent_id with
  | none => (none, [])
  | some _info =>
    if !env.worktreeExists then (none, [])
    else
      let t : List GitCall :=
        [(["add", "-A"], env.add),
         (["commit", "-m", "[Agent " ++ agent_id ++ "] " ++ message], env.commit)]
      if env.commit.code != 0 then (none, t)
      else
        (if env.revParse.code == 0 then some env.revParse.stdout else none,
         t ++ [(["rev-parse", "HEAD"], env.revParse)])

/-- GitSyncManager.push_agent_work: false for an unregistered agent or a
missing worktree; otherwise pushes the agent's branch with upstream
tracking and returns whether the push exited 0. -/
def push_agent_work (st : ManagerState) (agent_id : String)
    (worktreeExists : Bool) (push : GitResult) : Bool × List GitCall :=
  match getKey st.agents agent_id with
  | none => (false, [])
  | some info =>
    if !worktreeExists then (false, [])
    else (push.code == 0, [(["push", "-u", "origin", info.branch_name], push)])

/-- Environment for check_conflicts: worktree existence and the results of
its fetch, trial-merge and merge-abort calls. -/
structure ConflictEnv where
  worktreeExists : Bool
  fetch : GitResult
  merge : GitResult
  abortRes : GitResult
deriving Repr, DecidableEq

/-- GitSyncManager.check_conflicts: [] for an unregistered agent or a
missing worktree; otherwise fetches, runs the trial merge
(merge --no-commit --no-ff origin/target), unconditionally runs
merge --abort, and returns the stderr lines containing "CONFLICT" when
the trial merge exited nonzero with "CONFLICT" in stderr, else []. -/
def check_conflicts (st : ManagerState) (agent_id target_branch : String)
    (env : ConflictEnv) : List String × List GitCall :=
  match getKey st.agents agent_id with
  | none => ([], [])
  | some _info =>
    if !env.worktreeExists then ([], [])
    else
      let t : List GitCall :=
        [(["fetch", "origin"], env.fetch),
         (["merge", "--no-commit", "--no-ff", "origin/" ++ target_branch], env.merge),
         (["merge", "--abort"], env.abortRes)]
      if env.merge.code != 0 && strContains env.merge.stderr "CONFLICT" then
        ((splitLines env.merge.stderr).filter (fun line => strContains line "CONFLICT"), t)
      else ([], t)

/-- GitSyncManager.list_agents: the registry values. -/
def list_agents (st : ManagerState) : List AgentInfo :=
  st.agents.map (fun p => p.2)

/-- Merge-progress semantics of one git call on a worktree, from the
external tool's contract: a non-committing trial merge leaves the worktree
mid-merge (MERGE_HEAD present) whether it conflicted or applied cleanly,
merge --abort restores the pre-merge (non-merging) state, an ordinary
merge that exits nonzero leaves the conflict in progress, and no other
command changes the merge state. -/
def stepMerging (merging : Bool) (call : GitCall) : Bool :=
  match call.1 with
  | "merge" :: rest =>
    if rest.take 1 = ["--abort"] then false
    else if rest.take 1 = ["--no-commit"] then true
    else if call.2.code != 0 then true
    else merging
  | _ => merging

/-- Whether a worktree is mid-merge after a trace of git calls, starting
from a given merge state. -/
def mergingAfter (init : Bool) (t : List GitCall) : Bool :=
  t.foldl stepMerging init

/-- Diagnostic output of the external git tool for a merge that conflicts
in the given files, as observed (git 2.39): one
"CONFLICT (content): Merge conflict in path" line per file followed by the
failure line, all printed to standard output, with standard error empty
and exit code 1. -/
def gitConflictStdout (paths : List String) : String :=
  String.intercalate "\n"
    ((paths.map (fun p => "CONFLICT (content): Merge conflict in " ++ p)) ++
      ["Automatic merge failed; fix conflicts and then commit the result."])

/-- The _run_git result of a conflicting merge under the observed tool
behavior: exit 1, CONFLICT lines on stdout, empty stderr. -/
def gitConflictMergeResult (paths : List String) : GitResult :=
  { code := 1, stdout := gitConflictStdout paths, stderr := "" }

/-- A clean git result with the given stdout. -/
def gitOk (out : String) : GitResult :=
  { code := 0, stdout := out, stderr := "" }

/-- Example repository root used by concrete witnesses: the path /repo. -/
def exRepo : List String := ["repo"]

/-- Example registered agent a1 as create_agent_workspace would build it
under the root /repo (worktree at /worktree_a1). -/
def exInfo : AgentInfo :=
  { agent_id := "a1"
    branch_name := "agent/a1"
    worktree_path := ["worktree_a1"]
    status := .idle }

/-- Example configured state with agent a1 registered. -/
def exState : ManagerState :=
  { repo_path := some exRepo, agents := [("a1", exInfo)] }

/-- Example environment for check_conflicts in Scenario D: the worktree
exists, fetch succeeds, and the trial merge conflicts in f.txt with the
observed tool behavior (marker on stdout, stderr empty, exit 1). -/
def exConflictEnvD : ConflictEnv :=
  { worktreeExists := true
    fetch := gitOk ""
    merge := gitConflictMergeResult ["f.txt"]
    abortRes := gitOk "" }

/-- Example environment for check_conflicts in Scenario C: no divergence,
so the trial merge applies cleanly; the later abort then fails (there may
be nothing to abort), which the source ignores. -/
def exConflictEnvC : ConflictEnv :=
  { worktreeExists := true
    fetch := gitOk ""
    merge := gitOk "Already up to date."
    abortRes := { code := 128, stdout := "", stderr := "fatal: There is no merge to abort" } }

/-- Example sync environment in which the fetch fails with a network
error but the merge of the (stale) tracking branch applies cleanly. -/
def exSyncEnvFetchFail : SyncEnv :=
  { worktreeExists := true
    fetch := { code := -1, stdout := "", stderr := "fatal: unable to access remote" }
    merge := gitOk "Already up to date." }

/-- Example commit environment in which staging, commit and rev-parse all
succeed, rev-parse printing the new head revision. -/
def exCommitEnvOk : CommitEnv :=
  { worktreeExists := true
    add := gitOk ""
    commit := gitOk "1 file changed"
    revParse := gitOk "deadbeef0123" }

/-- Example write-status environment: a clean rev-parse and a fixed
timestamp. -/
def exWriteEnv : WriteStatusEnv :=
  { revParse := gitOk "abc1234", timestamp := "2026-01-01T00:00:00" }

/-- Example update environment built on the example write environment. -/
def exUpdateEnv : UpdateEnv :=
  { now := 7, writeEnv := exWriteEnv }

/-- Example create environment in which every step succeeds and the
worktree does not yet exist. -/
def exCreateEnvOk : CreateEnv :=
  { checkoutNew := gitOk ""
    checkoutExisting := gitOk ""
    checkoutBase := gitOk ""
    worktreeExists := false
    worktreeAdd := gitOk ""
    writeEnv := exWriteEnv }

/-- Example create environment in which the branch is created but the
worktree-add step fails. -/
def exCreateEnvFail : CreateEnv :=
  { checkoutNew := gitOk ""
    checkoutExisting := gitOk ""
    checkoutBase := gitOk ""
    worktreeExists := false
    worktreeAdd := { code := 128, stdout := "", stderr := "fatal: could not create work tree dir" }
    writeEnv := exWriteEnv }

/-- Example parsed status record, as a1's valid file would parse. -/
def exData : StatusFileData :=
  { agent_id := "a1"
    status := "idle"
    branch := "agent/a1"
    last_commit := some "abc1234"
    timestamp := "2026-01-01T00:00:00"
    message := none }

/-- Example json.loads oracle: the content valid parses to the example
record, anything else fails to parse. -/
def exLoads : String → Option StatusFileData := fun s =>
  if s = "valid" then some exData else none

/-- Looking up a key in an association list right after binding it with
setKey yields the bound value. -/
theorem getKey_setKey {α : Type} (l : List (String × α)) (k : String) (v : α) :
    getKey (setKey l k v) k = some v := by
  simp [setKey, getKey]

/-- Deleting a key with delKey removes every binding for it. -/
theorem getKey_delKey {α : Type} (l : List (String × α)) (k : String) :
    getKey (delKey l k) k = none := by
  induction l with
  | nil => rfl
  | cons a t ih =>
    by_cases h : a.1 = k
    · have hf : delKey (a :: t) k = delKey t k := by
        simp [delKey, List.filter_cons, h]
      rw [hf]
      exact ih
    · have hf : delKey (a :: t) k = a :: delKey t k := by
        simp [delKey, List.filter_cons, h]
      rw [hf]
      simp only [getKey, if_neg h]
      exact ih

/-- C1: at Scenario D's input — agent a1 registered, its branch modifying
the same line as main so that the trial merge conflicts in f.txt, the tool
reporting the conflict as observed (CONFLICT line on stdout, empty stderr,
exit 1) — check_conflicts returns the empty list even though the tool's
diagnostic output does contain the conflict marker and the merge exited
nonzero: the source scans stderr for a marker the tool prints to stdout,
so the claim's non-empty result does not occur. -/
theorem check_conflicts_misses_stdout_marker :
    (check_conflicts exState "a1" "main" exConflictEnvD).1 = [] ∧
    strContains exConflictEnvD.merge.stdout "CONFLICT" = true ∧
    exConflictEnvD.merge.code ≠ 0 := by
  refine ⟨rfl, by decide, by decide⟩

/-- C2: for every registered agent with an existing worktree and every
tool behavior, check_conflicts issues exactly fetch, the trial merge and
merge --abort, in that order — so the abort follows the trial merge on
every path, and under the merge-progress semantics of the tool the
worktree is not mid-merge when the call returns, whatever the trial
merge's exit code and whether or not conflicts were reported. -/
theorem check_conflicts_always_aborts (st : ManagerState)
    (agent_id target : String) (env : ConflictEnv) (info : AgentInfo)
    (hreg : getKey st.agents agent_id = some info)
    (hwt : env.worktreeExists = true) :
    (check_conflicts st agent_id target env).2 =
      [(["fetch", "origin"], env.fetch),
       (["merge", "--no-commit", "--no-ff", "origin/" ++ target], env.merge),
       (["merge", "--abort"], env.abortRes)] ∧
    mergingAfter false (check_conflicts st agent_id target env).2 = false := by
  have h2 : (check_conflicts st agent_id target env).2 =
      [(["fetch", "origin"], env.fetch),
       (["merge", "--no-commit", "--no-ff", "origin/" ++ target], env.merge),
       (["merge", "--abort"], env.abortRes)] := by
    unfold check_conflicts
    rw [hreg, hwt]
    simp only [Bool.not_true, Bool.false_eq_true, if_false]
    split <;> rfl
  refine ⟨h2, ?_⟩
  rw [h2]
  rfl

/-- Witness for C2 at Scenario C's input: agent a1, clean trial merge,
failing abort — the trace is still fetch, trial merge, abort, and the
worktree ends in a non-merging state. -/
theorem check_conflicts_always_aborts_witness :
    getKey exState.agents "a1" = some exInfo ∧
    exConflictEnvC.worktreeExists = true ∧
    ((check_conflicts exState "a1" "main" exConflictEnvC).2 =
      [(["fetch", "origin"], exConflictEnvC.fetch),
       (["merge", "--no-commit", "--no-ff", "origin/" ++ "main"], exConflictEnvC.merge),
       (["merge", "--abort"], exConflictEnvC.abortRes)] ∧
     mergingAfter false (check_conflicts exState "a1" "main" exConflictEnvC).2 = false) :=
  ⟨rfl, rfl, check_conflicts_always_aborts exState "a1" "main" exConflictEnvC exInfo rfl rfl⟩

/-- C3: counterexample — with agent a1 registered and its worktree
present, a fetch that fails (nonzero result, as on a network failure)
followed by a clean merge makes sync_from_main return true, though the
claim requires any non-zero result of the fetch or merge steps to make it
return false: the source discards the fetch result. -/
theorem sync_true_despite_fetch_failure :
    exSyncEnvFetchFail.fetch.code ≠ 0 ∧
    (sync_from_main exState "a1" exSyncEnvFetchFail).1 = true :=
  ⟨by decide, rfl⟩

/-- C3 amended: for every registered agent with an existing worktree,
sync_from_main runs fetch origin and then merges the upstream tracking
branch, and returns true iff the merge step exited 0 — a merge conflict
or other merge failure yields false, but the fetch result is ignored, so
a failed fetch followed by a clean merge still returns true. -/
theorem sync_from_main_true_iff_merge_clean (st : ManagerState)
    (agent_id : String) (env : SyncEnv) (info : AgentInfo)
    (hreg : getKey st.agents agent_id = some info)
    (hwt : env.worktreeExists = true) :
    sync_from_main st agent_id env =
      ((env.merge.code == 0),
       [(["fetch", "origin"], env.fetch),
        (["merge", "origin/main"], env.merge)]) := by
  unfold sync_from_main
  rw [hreg, hwt]
  simp

/-- Witness for the amended C3 at the counterexample input: the fetch
failed, the merge was clean, and the call returned true with the
fetch-then-merge trace. -/
theorem sync_from_main_true_iff_merge_clean_witness :
    getKey exState.agents "a1" = some exInfo ∧
    exSyncEnvFetchFail.worktreeExists = true ∧
    sync_from_main exState "a1" exSyncEnvFetchFail =
      ((exSyncEnvFetchFail.merge.code == 0),
       [(["fetch", "origin"], exSyncEnvFetchFail.fetch),
        (["merge", "origin/main"], exSyncEnvFetchFail.merge)]) :=
  ⟨rfl, rfl, sync_from_main_true_iff_merge_clean exState "a1" exSyncEnvFetchFail exInfo rfl rfl⟩

/-- C10: for every agent id absent from the registry, sync_from_main
returns false, commit_agent_work returns none, push_agent_work returns
false and check_conflicts returns the empty list, each with an empty
trace (no git invocation) and, all four being total functions, without
raising — the falsy results are exactly those of a genuine sync, commit
or push failure or of a no-conflict probe. -/
theorem unknown_agent_is_falsy (st : ManagerState)
    (agent_id msg target : String) (e1 : SyncEnv) (e2 : CommitEnv)
    (wt3 : Bool) (e3 : GitResult) (e4 : ConflictEnv)
    (h : getKey st.agents agent_id = none) :
    sync_from_main st agent_id e1 = (false, []) ∧
    commit_agent_work st agent_id msg e2 = (none, []) ∧
    push_agent_work st agent_id wt3 e3 = (false, []) ∧
    check_conflicts st agent_id target e4 = ([], []) := by
  unfold sync_from_main commit_agent_work push_agent_work check_conflicts
  rw [h]
  exact ⟨rfl, rfl, rfl, rfl⟩

/-- Witness for C10: the agent id zz is not registered in the example
state, and all four operations return their falsy value with no git call. -/
theorem unknown_agent_is_falsy_witness :
    getKey exState.agents "zz" = none ∧
    (sync_from_main exState "zz" exSyncEnvFetchFail = (false, []) ∧
     commit_agent_work exState "zz" "done" exCommitEnvOk = (none, []) ∧
     push_agent_work exState "zz" true (gitOk "") = (false, []) ∧
     check_conflicts exState "zz" "main" exConflictEnvD = ([], [])) :=
  ⟨rfl, unknown_agent_is_falsy exState "zz" "done" "main" exSyncEnvFetchFail
    exCommitEnvOk true (gitOk "") exConflictEnvD rfl⟩

/-- C4: counterexample — on the fresh unconfigured manager state,
list-all-statuses returns [] as a value without raising anything, and
update-status raises NOT_FOUND rather than CONFIGURATION_ERROR, so the
claim that createWorkspace, updateStatus and listAllStatuses all raise a
ConfigurationError before configuration is false. -/
theorem unconfigured_ops_not_all_config_error :
    get_all_agent_statuses initialState true []
      (fun _ : String => (none : Option StatusFileData)) = [] ∧
    (update_agent_status initialState [] "a1" .working none none exUpdateEnv).result =
      .error { message := "Agent a1 not found", code := .NOT_FOUND } ∧
    ErrorCode.NOT_FOUND ≠ ErrorCode.CONFIGURATION_ERROR :=
  ⟨rfl, rfl, by decide⟩

/-- C4 amended: on the unconfigured manager (repository root unset and,
as is then invariant, an empty registry), createWorkspace raises
CONFIGURATION_ERROR, but updateStatus raises NOT_FOUND (no agent can be
registered before configuration) and listAllStatuses returns [] without
raising any error. -/
theorem unconfigured_behavior {J : Type} (st : ManagerState) (dir : SyncDir)
    (agent_id base : String) (cenv : CreateEnv) (status : AgentStatus)
    (task message : Option String) (uenv : UpdateEnv) (dirExists : Bool)
    (files : List (String × String)) (loads : String → Option J)
    (hrepo : st.repo_path = none) (hagents : st.agents = []) :
    (create_agent_workspace st dir agent_id base cenv).result =
      .error { message := "Repository path not set", code := .CONFIGURATION_ERROR } ∧
    (update_agent_status st dir agent_id status task message uenv).result =
      .error { message := "Agent " ++ agent_id ++ " not found", code := .NOT_FOUND } ∧
    get_all_agent_statuses st dirExists files loads = [] := by
  unfold create_agent_workspace update_agent_status get_all_agent_statuses
  rw [hrepo, hagents]
  exact ⟨rfl, rfl, rfl⟩

/-- Witness for the amended C4 at the fresh manager state with concrete
arguments. -/
theorem unconfigured_behavior_witness :
    initialState.repo_path = none ∧ initialState.agents = [] ∧
    ((create_agent_workspace initialState [] "a1" "main" exCreateEnvOk).result =
      .error { message := "Repository path not set", code := .CONFIGURATION_ERROR } ∧
     (update_agent_status initialState [] "a1" .working none none exUpdateEnv).result =
      .error { message := "Agent " ++ "a1" ++ " not found", code := .NOT_FOUND } ∧
     get_all_agent_statuses initialState true []
       (fun _ : String => (none : Option StatusFileData)) = []) :=
  ⟨rfl, rfl, unconfigured_behavior initialState [] "a1" "main" exCreateEnvOk .working
    none none exUpdateEnv true [] (fun _ : String => (none : Option StatusFileData)) rfl rfl⟩

/-- C5: on a configured manager, when the branch-creation step succeeded,
the worktree path does not yet exist and the worktree-add step fails,
create_agent_workspace raises the error the implementation uses for an
irrecoverable branch/working-directory failure — an InvoiceError with
code DATABASE_ERROR, the concrete stand-in for the taxonomy's
CoordinationError, distinct from CONFIGURATION_ERROR and NOT_FOUND; the
registry and the sync directory are unchanged (no entry and no status
record for the agent), the trace shows the branch-creation command was
issued, and no issued command deletes or otherwise touches a branch, so
the created branch is left behind. -/
theorem create_worktree_failure_leaves_branch (st : ManagerState) (dir : SyncDir)
    (agent_id base : String) (env : CreateEnv) (repo : List String)
    (hrepo : st.repo_path = some repo)
    (hbranch : env.checkoutNew.code = 0)
    (hwt : env.worktreeExists = false)
    (hfail : env.worktreeAdd.code ≠ 0) :
    (create_agent_workspace st dir agent_id base env).result =
      .error { message := "Failed to create worktree: " ++ env.worktreeAdd.stderr
               code := .DATABASE_ERROR } ∧
    ErrorCode.DATABASE_ERROR ≠ ErrorCode.CONFIGURATION_ERROR ∧
    ErrorCode.DATABASE_ERROR ≠ ErrorCode.NOT_FOUND ∧
    (create_agent_workspace st dir agent_id base env).state = st ∧
    (create_agent_workspace st dir agent_id base env).dir = dir ∧
    (["checkout", "-b", "agent/" ++ agent_id, base], env.checkoutNew) ∈
      (create_agent_workspace st dir agent_id base env).trace ∧
    (∀ c ∈ (create_agent_workspace st dir agent_id base env).trace,
      c.1.head? ≠ some "branch") := by
  have hb : (env.checkoutNew.code != 0) = false := by simp [hbranch]
  have ha : (env.worktreeAdd.code != 0) = true := by simp [bne_iff_ne, hfail]
  have hE : create_agent_workspace st dir agent_id base env =
      { result := .error { message := "Failed to create worktree: " ++ env.worktreeAdd.stderr
                           code := .DATABASE_ERROR }
        state := st
        dir := dir
        trace := [(["checkout", "-b", "agent/" ++ agent_id, base], env.checkoutNew),
                  (["checkout", base], env.checkoutBase),
                  (["worktree", "add",
                    String.intercalate "/" (repo.dropLast ++ ["worktree_" ++ agent_id]),
                    "agent/" ++ agent_id], env.worktreeAdd)] } := by
    unfold create_agent_workspace
    rw [hrepo]
    simp [hb, hwt, ha]
  rw [hE]
  refine ⟨rfl, by decide, by decide, rfl, rfl, by simp, ?_⟩
  intro c hc
  simp only [List.mem_cons, List.mem_singleton] at hc
  rcases hc with h | h | h | h <;> first
    | (subst h; simp [List.head?])
    | exact absurd h (by simp)

/-- Witness for C5: the example configured state and the example
environment in which worktree-add fails after a successful branch
creation. -/
theorem create_worktree_failure_leaves_branch_witness :
    exState.repo_path = some exRepo ∧
    exCreateEnvFail.checkoutNew.code = 0 ∧
    exCreateEnvFail.worktreeExists = false ∧
    exCreateEnvFail.worktreeAdd.code ≠ 0 ∧
    ((create_agent_workspace exState [] "a2" "main" exCreateEnvFail).result =
      .error { message := "Failed to create worktree: " ++ exCreateEnvFail.worktreeAdd.stderr
               code := .DATABASE_ERROR } ∧
     ErrorCode.DATABASE_ERROR ≠ ErrorCode.CONFIGURATION_ERROR ∧
     ErrorCode.DATABASE_ERROR ≠ ErrorCode.NOT_FOUND ∧
     (create_agent_workspace exState [] "a2" "main" exCreateEnvFail).state = exState ∧
     (create_agent_workspace exState [] "a2" "main" exCreateEnvFail).dir = [] ∧
     (["checkout", "-b", "agent/" ++ "a2", "main"], exCreateEnvFail.checkoutNew) ∈
       (create_agent_workspace exState [] "a2" "main" exCreateEnvFail).trace ∧
     (∀ c ∈ (create_agent_workspace exState [] "a2" "main" exCreateEnvFail).trace,
       c.1.head? ≠ some "branch")) :=
  ⟨rfl, rfl, rfl, by decide,
   create_worktree_failure_leaves_branch exState [] "a2" "main" exCreateEnvFail exRepo
     rfl rfl rfl (by decide)⟩

/-- C6: on a configured manager, remove_agent_workspace for an
unregistered (or already removed) agent is a no-op that issues no git
command — and the operation is a total function, so it never raises;
after any call the agent's registry entry is gone; when the agent was
registered its status file is deleted from the sync directory; no issued
command deletes a branch; and a second consecutive call is a no-op, which
is the idempotence the claim states. -/
theorem remove_workspace_idempotent (st : ManagerState) (dir : SyncDir)
    (agent_id : String) (res res' : GitResult) (repo : List String)
    (hrepo : st.repo_path = some repo) :
    (getKey st.agents agent_id = none →
      remove_agent_workspace st dir agent_id res = ⟨st, dir, []⟩) ∧
    getKey (remove_agent_workspace st dir agent_id res).state.agents agent_id = none ∧
    (∀ info, getKey st.agents agent_id = some info →
      getKey (remove_agent_workspace st dir agent_id res).dir (agent_id ++ ".json") = none) ∧
    (∀ c ∈ (remove_agent_workspace st dir agent_id res).trace,
      c.1.head? ≠ some "branch") ∧
    remove_agent_workspace (remove_agent_workspace st dir agent_id res).state
        (remove_agent_workspace st dir agent_id res).dir agent_id res' =
      ⟨(remove_agent_workspace st dir agent_id res).state,
       (remove_agent_workspace st dir agent_id res).dir, []⟩ := by
  cases hg : getKey st.agents agent_id with
  | none =>
    have hE : remove_agent_workspace st dir agent_id res = ⟨st, dir, []⟩ := by
      unfold remove_agent_workspace
      rw [hg]
    refine ⟨fun _ => hE, ?_, ?_, ?_, ?_⟩
    · rw [hE]
      exact hg
    · intro info hinfo
      exact absurd hinfo (by simp)
    · rw [hE]
      intro c hc
      exact absurd hc (by simp)
    · rw [hE]
      unfold remove_agent_workspace
      rw [hg]
  | some info =>
    have hE : remove_agent_workspace st dir agent_id res =
        ⟨{ st with agents := delKey st.agents agent_id },
         delKey dir (agent_id ++ ".json"),
         [(["worktree", "remove", String.intercalate "/" info.worktree_path, "--force"],
           res)]⟩ := by
      unfold remove_agent_workspace
      rw [hg, hrepo]
    refine ⟨fun h => absurd h (by simp), ?_, ?_, ?_, ?_⟩
    · rw [hE]
      exact getKey_delKey st.agents agent_id
    · intro i _
      rw [hE]
      exact getKey_delKey dir (agent_id ++ ".json")
    · rw [hE]
      intro c hc
      simp only [List.mem_singleton] at hc
      subst hc
      simp [List.head?]
    · rw [hE]
      have hg2 : getKey (delKey st.agents agent_id) agent_id = none :=
        getKey_delKey st.agents agent_id
      unfold remove_agent_workspace
      rw [hg2]

/-- Witness for C6: removing agent a1 from the example state with its
status file present, then removing it again. -/
theorem remove_workspace_idempotent_witness :
    exState.repo_path = some exRepo ∧
    ((getKey exState.agents "a1" = none →
       remove_agent_workspace exState [("a1.json", exData)] "a1" (gitOk "") =
         ⟨exState, [("a1.json", exData)], []⟩) ∧
     getKey (remove_agent_workspace exState [("a1.json", exData)] "a1"
       (gitOk "")).state.agents "a1" = none ∧
     (∀ info, getKey exState.agents "a1" = some info →
       getKey (remove_agent_workspace exState [("a1.json", exData)] "a1"
         (gitOk "")).dir ("a1" ++ ".json") = none) ∧
     (∀ c ∈ (remove_agent_workspace exState [("a1.json", exData)] "a1" (gitOk "")).trace,
       c.1.head? ≠ some "branch") ∧
     remove_agent_workspace
         (remove_agent_workspace exState [("a1.json", exData)] "a1" (gitOk "")).state
         (remove_agent_workspace exState [("a1.json", exData)] "a1" (gitOk "")).dir
         "a1" (gitOk "") =
       ⟨(remove_agent_workspace exState [("a1.json", exData)] "a1" (gitOk "")).state,
        (remove_agent_workspace exState [("a1.json", exData)] "a1" (gitOk "")).dir, []⟩) :=
  ⟨rfl, remove_workspace_idempotent exState [("a1.json", exData)] "a1"
    (gitOk "") (gitOk "") exRepo rfl⟩

/-- C7: for every registered agent with an existing worktree,
commit_agent_work stages all pending changes (add -A) and commits with
the message tagged by the agent id; when the commit exits nonzero — in
particular when there is nothing to commit — it returns none; when the
commit succeeds it returns the rev-parse HEAD output of the worktree,
which is the resulting current revision of the agent's branch checked out
there, when that lookup exits 0, and none when the hash lookup fails. -/
theorem commit_work_contract (st : ManagerState) (agent_id msg : String)
    (env : CommitEnv) (info : AgentInfo)
    (hreg : getKey st.agents agent_id = some info)
    (hwt : env.worktreeExists = true) :
    (["add", "-A"], env.add) ∈ (commit_agent_work st agent_id msg env).2 ∧
    (["commit", "-m", "[Agent " ++ agent_id ++ "] " ++ msg], env.commit) ∈
      (commit_agent_work st agent_id msg env).2 ∧
    (env.commit.code ≠ 0 → (commit_agent_work st agent_id msg env).1 = none) ∧
    (env.commit.code = 0 → env.revParse.code = 0 →
      (commit_agent_work st agent_id msg env).1 = some env.revParse.stdout ∧
      (["rev-parse", "HEAD"], env.revParse) ∈ (commit_agent_work st agent_id msg env).2) ∧
    (env.commit.code = 0 → env.revParse.code ≠ 0 →
      (commit_agent_work st agent_id msg env).1 = none) := by
  by_cases hc : env.commit.code = 0 <;> by_cases hr : env.revParse.code = 0 <;>
    simp [commit_agent_work, hreg, hwt, hc, hr, bne_iff_ne, beq_iff_eq]

/-- Witness for C7: agent a1 with the all-successful commit environment,
whose rev-parse output deadbeef0123 is returned as the commit hash. -/
theorem commit_work_contract_witness :
    getKey exState.agents "a1" = some exInfo ∧
    exCommitEnvOk.worktreeExists = true ∧
    ((["add", "-A"], exCommitEnvOk.add) ∈ (commit_agent_work exState "a1" "done" exCommitEnvOk).2 ∧
     (["commit", "-m", "[Agent " ++ "a1" ++ "] " ++ "done"], exCommitEnvOk.commit) ∈
       (commit_agent_work exState "a1" "done" exCommitEnvOk).2 ∧
     (exCommitEnvOk.commit.code ≠ 0 → (commit_agent_work exState "a1" "done" exCommitEnvOk).1 = none) ∧
     (exCommitEnvOk.commit.code = 0 → exCommitEnvOk.revParse.code = 0 →
       (commit_agent_work exState "a1" "done" exCommitEnvOk).1 = some exCommitEnvOk.revParse.stdout ∧
       (["rev-parse", "HEAD"], exCommitEnvOk.revParse) ∈
         (commit_agent_work exState "a1" "done" exCommitEnvOk).2) ∧
     (exCommitEnvOk.commit.code = 0 → exCommitEnvOk.revParse.code ≠ 0 →
       (commit_agent_work exState "a1" "done" exCommitEnvOk).1 = none)) :=
  ⟨rfl, rfl, commit_work_contract exState "a1" "done" exCommitEnvOk exInfo rfl rfl⟩

/-- C8: on a configured manager with root R, a successful createWorkspace
(the worktree already existed, or worktree-add exited 0) returns an
AgentInfo whose branch is agent/ followed by the id, whose worktree path
is worktree_ followed by the id under the parent of R, and whose status
is Idle; it registers that record, and writes the agent's status file in
the sync directory R/.agent_sync with the status field "idle". -/
theorem create_workspace_success (st : ManagerState) (dir : SyncDir)
    (agent_id base : String) (env : CreateEnv) (repo : List String)
    (hrepo : st.repo_path = some repo)
    (hok : env.worktreeExists = true ∨ env.worktreeAdd.code = 0) :
    ∃ info,
      (create_agent_workspace st dir agent_id base env).result = .ok info ∧
      info.agent_id = agent_id ∧
      info.branch_name = "agent/" ++ agent_id ∧
      info.worktree_path = repo.dropLast ++ ["worktree_" ++ agent_id] ∧
      info.status = .idle ∧
      getKey (create_agent_workspace st dir agent_id base env).state.agents agent_id
        = some info ∧
      ∃ d, getKey (create_agent_workspace st dir agent_id base env).dir
            (agent_id ++ ".json") = some d ∧
        d.agent_id = agent_id ∧ d.status = "idle" ∧ d.branch = "agent/" ++ agent_id ∧
        d.timestamp = env.writeEnv.timestamp := by
  have key :
      (create_agent_workspace st dir agent_id base env).result =
        .ok { agent_id := agent_id
              branch_name := "agent/" ++ agent_id
              worktree_path := repo.dropLast ++ ["worktree_" ++ agent_id]
              status := .idle } ∧
      (create_agent_workspace st dir agent_id base env).state.agents =
        setKey st.agents agent_id
          { agent_id := agent_id
            branch_name := "agent/" ++ agent_id
            worktree_path := repo.dropLast ++ ["worktree_" ++ agent_id]
            status := .idle } ∧
      (create_agent_workspace st dir agent_id base env).dir =
        setKey dir (agent_id ++ ".json")
          { agent_id := agent_id
            status := "idle"
            branch := "agent/" ++ agent_id
            last_commit :=
              if env.writeEnv.revParse.code = 0 then some env.writeEnv.revParse.stdout else none
            timestamp := env.writeEnv.timestamp
            message := none } := by
    by_cases hwt : env.worktreeExists = true
    · refine ⟨?_, ?_, ?_⟩ <;>
        simp [create_agent_workspace, hrepo, hwt, write_status, AgentStatus.value]
    · have haddz : env.worktreeAdd.code = 0 := hok.resolve_left hwt
      have hwtf : env.worktreeExists = false := by
        revert hwt
        cases env.worktreeExists <;> simp
      have hab : (env.worktreeAdd.code != 0) = false := by simp [haddz]
      refine ⟨?_, ?_, ?_⟩ <;>
        simp [create_agent_workspace, hrepo, hwtf, hab, write_status, AgentStatus.value]
  refine ⟨_, key.1, rfl, rfl, rfl, rfl, ?_, ?_⟩
  · rw [key.2.1]
    exact getKey_setKey st.agents agent_id _
  · have hd : getKey (create_agent_workspace st dir agent_id base env).dir
        (agent_id ++ ".json") =
        some { agent_id := agent_id
               status := "idle"
               branch := "agent/" ++ agent_id
               last_commit :=
                 if env.writeEnv.revParse.code = 0 then some env.writeEnv.revParse.stdout
                 else none
               timestamp := env.writeEnv.timestamp
               message := none } := by
      rw [key.2.2]
      exact getKey_setKey dir (agent_id ++ ".json") _
    exact ⟨_, hd, rfl, rfl, rfl, rfl⟩

/-- Witness for C8: Scenario A at the example root /repo — the created
agent a1 gets branch agent/a1, worktree /worktree_a1 and status Idle, and
its status file holds status idle. -/
theorem create_workspace_success_witness :
    exState.repo_path = some exRepo ∧
    (exCreateEnvOk.worktreeExists = true ∨ exCreateEnvOk.worktreeAdd.code = 0) ∧
    (∃ info,
      (create_agent_workspace exState [] "a1" "main" exCreateEnvOk).result = .ok info ∧
      info.agent_id = "a1" ∧
      info.branch_name = "agent/" ++ "a1" ∧
      info.worktree_path = exRepo.dropLast ++ ["worktree_" ++ "a1"] ∧
      info.status = .idle ∧
      getKey (create_agent_workspace exState [] "a1" "main" exCreateEnvOk).state.agents "a1"
        = some info ∧
      ∃ d, getKey (create_agent_workspace exState [] "a1" "main" exCreateEnvOk).dir
            ("a1" ++ ".json") = some d ∧
        d.agent_id = "a1" ∧ d.status = "idle" ∧ d.branch = "agent/" ++ "a1" ∧
        d.timestamp = exCreateEnvOk.writeEnv.timestamp) :=
  ⟨rfl, Or.inr rfl,
   create_workspace_success exState [] "a1" "main" exCreateEnvOk exRepo rfl (Or.inr rfl)⟩

/-- C9: on a configured manager with an existing sync directory,
list-all-statuses is a total function of the directory contents (nothing
is raised); it returns exactly the successful parses of the json files
present, and inserting a file whose content fails to parse anywhere in
the directory leaves the result for the remaining files unchanged, so one
corrupt status file does not prevent other agents' valid records from
being returned. -/
theorem list_statuses_corruption_tolerant {J : Type} (st : ManagerState)
    (repo : List String) (files pre post : List (String × String))
    (name bad : String) (loads : String → Option J)
    (hrepo : st.repo_path = some repo) (hbad : loads bad = none) :
    get_all_agent_statuses st true files loads =
      (files.filter (fun f => strEndsWith f.1 ".json")).filterMap (fun f => loads f.2) ∧
    get_all_agent_statuses st true (pre ++ (name, bad) :: post) loads =
      get_all_agent_statuses st true (pre ++ post) loads := by
  constructor
  · simp [get_all_agent_statuses, hrepo]
  · by_cases hn : strEndsWith name ".json" = true <;>
      simp [get_all_agent_statuses, hrepo, List.filter_append, List.filterMap_append,
        List.filter_cons, hn, hbad]

/-- Witness for C9: the example directory with a1's valid record and one
corrupt file — the corrupt file is skipped and a1's record is returned. -/
theorem list_statuses_corruption_tolerant_witness :
    exState.repo_path = some exRepo ∧
    exLoads "oops" = none ∧
    (get_all_agent_statuses exState true [("a1.json", "valid"), ("bad.json", "oops")] exLoads =
      ([("a1.json", "valid"), ("bad.json", "oops")].filter
        (fun f => strEndsWith f.1 ".json")).filterMap (fun f => exLoads f.2) ∧
     get_all_agent_statuses exState true
        ([("a1.json", "valid")] ++ ("bad.json", "oops") :: []) exLoads =
      get_all_agent_statuses exState true ([("a1.json", "valid")] ++ []) exLoads) :=
  ⟨rfl, rfl, list_statuses_corruption_tolerant exState exRepo
    [("a1.json", "valid"), ("bad.json", "oops")] [("a1.json", "valid")] []
    "bad.json" "oops" exLoads rfl rfl⟩

end GitSync
